import Mathlib

/-!
Shallow embedding of the resilient delivery subsystem of `helpers.py`
(GridBNB-USDT): the tenacity retry decorator
`@retry(stop=stop_after_attempt(3), wait=wait_exponential(multiplier=1, min=2, max=10))`
applied to `safe_fetch` and `send_telegram_message`, together with the
message rendering, credential guard and size-truncation policy of
`send_telegram_message`.

Python strings are modelled as lists of Unicode code points (`List Char`),
matching Python's `len` and slicing semantics on `str`.  Raised exceptions
are modelled with `Except`; the log stream, the texts handed to the
transport's send call, the number of invocations of the wrapped body and
the backoff delays are recorded explicitly so that the observable behaviour
of one decorated call is a pure value.
-/

deriving instance DecidableEq for Except

namespace GridBNB

/-- Python strings, as sequences of Unicode code points. -/
abbrev PyStr := List Char

/-- Severity levels of the `logging` calls appearing in `helpers.py`. -/
inductive LogLevel where
  | debug
  | info
  | warning
  | error
deriving DecidableEq, Repr

/-- One emitted log line: severity, message text, and whether `exc_info=True`
was passed (full diagnostic context, not just a message). -/
structure LogEntry where
  level : LogLevel
  msg : PyStr
  exc_info : Bool
deriving DecidableEq, Repr

/-- Exceptions that can travel through the retried bodies:
`telegram.error.TelegramError`, any other `Exception`, and
`tenacity.RetryError` (which wraps the last attempt's exception when all
attempts are exhausted and `reraise` was left at its default `False`). -/
inductive PyError where
  | telegramError (msg : PyStr)
  | otherError (msg : PyStr)
  | retryError (last : PyError)
deriving DecidableEq, Repr

/-- The text `str(e)` used when an exception is interpolated into a log
message.  For the two leaf kinds this is the carried message; `retryError`
never reaches such an interpolation in the modelled code. -/
def PyError.str : PyError → PyStr
  | .telegramError m => m
  | .otherError m => m
  | .retryError e => e.str

/-- tenacity's `wait_exponential(multiplier, max, exp_base=2, min)`:
the wait after the failed attempt numbered `i` (1-indexed) is
`max(max(0, min), min(multiplier * exp_base ** (i - 1), max))`
(`retry_state.attempt_number` equals `i` when the wait is computed).
All parameter values used in `helpers.py` are integral, so `Nat` suffices. -/
def wait_exponential (multiplier minW maxW : Nat) (i : Nat) : Nat :=
  Nat.max (Nat.max 0 minW) (Nat.min (multiplier * 2 ^ (i - 1)) maxW)

/-- The wait policy both decorators in `helpers.py` use:
`wait_exponential(multiplier=1, min=2, max=10)`. -/
def standardWait : Nat → Nat :=
  wait_exponential 1 2 10

/-- What one invocation of a retried body observably does: its outcome
(normal return or raised exception), the log lines it emitted, and the
texts it handed to the transport's send call. -/
structure Attempt (α : Type) where
  result : Except PyError α
  logs : List LogEntry
  sent : List PyStr
deriving Repr

/-- The observable behaviour of one call of a retry-decorated function:
final outcome, number of invocations of the body, the backoff delays slept
between attempts (in order), and the concatenated logs and sent texts. -/
structure RunResult (α : Type) where
  result : Except PyError α
  calls : Nat
  delays : List Nat
  logs : List LogEntry
  sent : List PyStr
deriving Repr

/-- tenacity's attempt loop with a `stop_after_attempt` bound.  `attempt` is
the 1-indexed number of the next attempt, `fuel` the number of attempts the
stop condition still allows.  On success the result is returned unchanged
and no further wait is slept; on failure with attempts remaining the wait
for the just-failed attempt is slept and the body is re-invoked; when the
bound is reached the loop raises `RetryError` wrapping the last attempt's
exception (default `reraise=False`), with no wait after the final attempt.
The `fuel = 0` case is unreachable from `retryRun` with a positive bound. -/
def retryAux (wait : Nat → Nat) (op : Nat → Attempt α) : Nat → Nat → RunResult α
  | _, 0 => ⟨Except.error (PyError.retryError (PyError.otherError [])), 0, [], [], []⟩
  | attempt, 1 =>
    let a := op attempt
    match a.result with
    | Except.ok v => ⟨Except.ok v, 1, [], a.logs, a.sent⟩
    | Except.error e => ⟨Except.error (PyError.retryError e), 1, [], a.logs, a.sent⟩
  | attempt, n + 2 =>
    let a := op attempt
    match a.result with
    | Except.ok v => ⟨Except.ok v, 1, [], a.logs, a.sent⟩
    | Except.error _ =>
      let rest := retryAux wait op (attempt + 1) (n + 1)
      ⟨rest.result, rest.calls + 1, wait attempt :: rest.delays,
        a.logs ++ rest.logs, a.sent ++ rest.sent⟩

/-- One call of a function decorated with
`@retry(stop=stop_after_attempt(maxAttempts), wait=wait)`, whose body on its
`i`-th invocation behaves as `op i`. -/
def retryRun (maxAttempts : Nat) (wait : Nat → Nat) (op : Nat → Attempt α) : RunResult α :=
  retryAux wait op 1 maxAttempts

/-- One invocation of the body of `safe_fetch`: await the method; on any
exception log `"请求失败: {str(e)}"` at error severity and re-raise. -/
def safe_fetch_body (method : Except PyError α) : Attempt α :=
  match method with
  | Except.ok v => ⟨Except.ok v, [], []⟩
  | Except.error e =>
    ⟨Except.error e, [⟨LogLevel.error, "请求失败: ".toList ++ e.str, false⟩], []⟩

/-- `safe_fetch` under its decorator
`@retry(stop=stop_after_attempt(3), wait=wait_exponential(multiplier=1, min=2, max=10))`;
`method i` is the outcome of the awaited method on its `i`-th invocation. -/
def safe_fetch (method : Nat → Except PyError α) : RunResult α :=
  retryRun 3 standardWait (fun i => safe_fetch_body (method i))

/-- The two configuration values `send_telegram_message` reads.  `none`
models an unset value; the empty string is also falsy in the guard. -/
structure Config where
  TELEGRAM_BOT_TOKEN : Option PyStr
  TELEGRAM_CHAT_ID : Option PyStr
deriving DecidableEq, Repr

/-- Python truthiness of an optional string: `None` and `""` are falsy. -/
def truthy : Option PyStr → Bool
  | none => false
  | some s => !s.isEmpty

/-- Behaviour of the transport call `bot.send_message(...)` on one attempt:
it returns normally, raises `telegram.error.TelegramError`, or raises some
other exception. -/
inductive SendOutcome where
  | success
  | telegramError (msg : PyStr)
  | unexpectedError (msg : PyStr)
deriving DecidableEq, Repr

/-- The default value of the `title` parameter of `send_telegram_message`. -/
def DEFAULT_TITLE : PyStr := "交易通知".toList

/-- `full_message = f"*\x7btitle\x7d*\n\n\x7bcontent\x7d"`: the rendered
outgoing text, title emphasized with Markdown asterisks, then a blank line,
then the body. -/
def renderMessage (title content : PyStr) : PyStr :=
  "*".toList ++ title ++ "*\n\n".toList ++ content

/-- `max_length = 4000`: the truncation threshold, with margin under the
transport's 4096-character limit. -/
def MAX_LENGTH : Nat := 4000

/-- One invocation of the body of `send_telegram_message`: credential
guard, rendering, size check with truncation, transport call, and the
per-outcome logging; transport-kind and unexpected exceptions are both
logged and re-raised. -/
def send_telegram_message_body (cfg : Config) (content title : PyStr)
    (transport : SendOutcome) : Attempt Unit :=
  if !truthy cfg.TELEGRAM_BOT_TOKEN || !truthy cfg.TELEGRAM_CHAT_ID then
    ⟨Except.ok (),
      [⟨LogLevel.error, "未配置TELEGRAM_BOT_TOKEN或TELEGRAM_CHAT_ID，无法发送Telegram通知".toList, false⟩],
      []⟩
  else
    let full_message := renderMessage title content
    let preLogs : List LogEntry :=
      [⟨LogLevel.info, "正在发送Telegram通知: ".toList ++ title, false⟩]
    let warnLogs : List LogEntry :=
      if full_message.length > MAX_LENGTH then
        [⟨LogLevel.warning,
          "消息过长 (".toList ++ (toString full_message.length).toList
            ++ " chars)，将被截断.".toList, false⟩]
      else []
    let outgoing :=
      if full_message.length > MAX_LENGTH then
        full_message.take MAX_LENGTH ++ "...".toList
      else full_message
    match transport with
    | SendOutcome.success =>
      ⟨Except.ok (),
        preLogs ++ warnLogs ++ [⟨LogLevel.info, "Telegram消息发送成功".toList, false⟩],
        [outgoing]⟩
    | SendOutcome.telegramError m =>
      ⟨Except.error (PyError.telegramError m),
        preLogs ++ warnLogs ++ [⟨LogLevel.error, "Telegram消息发送失败: ".toList ++ m, false⟩],
        [outgoing]⟩
    | SendOutcome.unexpectedError m =>
      ⟨Except.error (PyError.otherError m),
        preLogs ++ warnLogs
          ++ [⟨LogLevel.error, "发送Telegram消息时发生未知错误: ".toList ++ m, true⟩],
        [outgoing]⟩

/-- `send_telegram_message` under its decorator
`@retry(stop=stop_after_attempt(3), wait=wait_exponential(multiplier=1, min=2, max=10))`;
`transport i` is the behaviour of the transport send call on the `i`-th
attempt. -/
def send_telegram_message (cfg : Config) (content title : PyStr)
    (transport : Nat → SendOutcome) : RunResult Unit :=
  retryRun 3 standardWait (fun i => send_telegram_message_body cfg content title (transport i))

/-- A call of `send_telegram_message` with the `title` argument omitted, as
the source's default parameter value supplies it. -/
def send_telegram_message_defaultTitle (cfg : Config) (content : PyStr)
    (transport : Nat → SendOutcome) : RunResult Unit :=
  send_telegram_message cfg content DEFAULT_TITLE transport

/-- The delay formula exactly as the specification words it:
`min(max_delay, base_delay × multiplier^(i-1))` with `base_delay = 2`,
`max_delay = 10`, `multiplier = 1`.  Stated from the spec's words, to be
compared with `standardWait`, the formula the library actually computes. -/
def specDelay (i : Nat) : Nat :=
  Nat.min 10 (2 * 1 ^ (i - 1))

/-- A configuration with both credentials present. -/
def cfgOK : Config := ⟨some "T".toList, some "C".toList⟩

/-- An operation failing on every invocation, its error naming the
invocation number. -/
def alwaysFailMethod (i : Nat) : Except PyError Unit :=
  Except.error (PyError.otherError (toString i).toList)

/-- C1: counterexample — for the always-failing operation
`alwaysFailMethod`, `safe_fetch` does invoke the operation exactly 3 times,
but the failure surfaced to the caller is tenacity's `RetryError` wrapping
the third invocation's error, not that error itself (the decorator leaves
`reraise` at its default `False`): the claim's "same error/kind ... with no
wrapping" part fails on the code. -/
theorem safe_fetch_exhaustion_unwrapped_counterexample :
    (safe_fetch alwaysFailMethod).calls = 3 ∧
    (safe_fetch alwaysFailMethod).result
      ≠ Except.error (PyError.otherError "3".toList) ∧
    (safe_fetch alwaysFailMethod).result
      = Except.error (PyError.retryError (PyError.otherError "3".toList)) := by
  decide

/-- C1 (amended): for every operation that fails on every invocation, the
retry wrapper invokes it exactly 3 times, and the failure surfaced after
exhaustion is `RetryError` wrapping the error raised by the final (3rd)
invocation — the underlying cause is preserved inside the wrapper, but the
surfaced exception kind is `RetryError`, not the final attempt's own kind. -/
theorem safe_fetch_exhaustion_wraps_last_error {α : Type}
    (errOf : Nat → PyError) (method : Nat → Except PyError α)
    (h : ∀ i, method i = Except.error (errOf i)) :
    (safe_fetch method).calls = 3 ∧
    (safe_fetch method).result = Except.error (PyError.retryError (errOf 3)) := by
  simp [safe_fetch, retryRun, retryAux, safe_fetch_body, h]

/-- C1 witness: the amended theorem applied to a concrete always-failing
operation. -/
theorem safe_fetch_exhaustion_wraps_last_error_witness :
    (safe_fetch (fun _ => (Except.error (PyError.otherError "x".toList) : Except PyError Unit))).calls = 3 ∧
    (safe_fetch (fun _ => (Except.error (PyError.otherError "x".toList) : Except PyError Unit))).result
      = Except.error (PyError.retryError (PyError.otherError "x".toList)) :=
  safe_fetch_exhaustion_wraps_last_error (fun _ => PyError.otherError "x".toList)
    (fun _ => Except.error (PyError.otherError "x".toList)) (fun _ => rfl)

/-- C2: counterexample — with credentials present and a transport that
fails on every attempt, `send_telegram_message` does not return normally:
the call raises `RetryError` (wrapping the last `TelegramError`) to its
caller, so the caller does observe a raised error from notification
delivery. -/
theorem send_telegram_message_exhaustion_raises_counterexample :
    (send_telegram_message cfgOK "hi".toList "t".toList
        (fun _ => SendOutcome.telegramError "net".toList)).result
      = Except.error (PyError.retryError (PyError.telegramError "net".toList)) ∧
    (send_telegram_message cfgOK "hi".toList "t".toList
        (fun _ => SendOutcome.telegramError "net".toList)).result
      ≠ Except.ok () := by
  decide

/-- The exception `send_telegram_message` re-raises for a failing transport
outcome: a `TelegramError` is re-raised as itself by the first except
block, any other exception likewise by the second.  `success` raises
nothing; the value placed there is immaterial and never used under a
failing outcome. -/
def outcomeError : SendOutcome → PyError
  | SendOutcome.success => PyError.otherError []
  | SendOutcome.telegramError m => PyError.telegramError m
  | SendOutcome.unexpectedError m => PyError.otherError m

/-- The error-severity log line the corresponding except block of
`send_telegram_message` emits for a failing transport outcome (`success`
reaches no except block; the value placed there is immaterial and never
used under a failing outcome). -/
def outcomeErrorLog : SendOutcome → LogEntry
  | SendOutcome.success => ⟨LogLevel.info, "Telegram消息发送成功".toList, false⟩
  | SendOutcome.telegramError m =>
      ⟨LogLevel.error, "Telegram消息发送失败: ".toList ++ m, false⟩
  | SendOutcome.unexpectedError m =>
      ⟨LogLevel.error, "发送Telegram消息时发生未知错误: ".toList ++ m, true⟩

/-- On any failing transport outcome, one invocation of the body of
`send_telegram_message` re-raises the corresponding exception and emits the
corresponding error-severity log line. -/
theorem send_telegram_message_body_fails
    (cfg : Config) (content title : PyStr) (s : SendOutcome)
    (hT : truthy cfg.TELEGRAM_BOT_TOKEN = true) (hC : truthy cfg.TELEGRAM_CHAT_ID = true)
    (hs : s ≠ SendOutcome.success) :
    (send_telegram_message_body cfg content title s).result
      = Except.error (outcomeError s) ∧
    outcomeErrorLog s ∈ (send_telegram_message_body cfg content title s).logs := by
  cases s with
  | success => exact absurd rfl hs
  | telegramError m =>
    constructor <;>
      simp [send_telegram_message_body, outcomeError, outcomeErrorLog, hT, hC]
  | unexpectedError m =>
    constructor <;>
      simp [send_telegram_message_body, outcomeError, outcomeErrorLog, hT, hC]

/-- C2 (amended): for every notification whose delivery fails on all retry
attempts — whatever mixture of error kinds the failures are — each failed
attempt's error-severity log line is emitted, the transport is tried
exactly 3 times, and after exhaustion the dispatcher raises `RetryError`
wrapping the final (3rd) attempt's error to its caller: it does not return
normally, so exhausted delivery failures do propagate out of
`send_telegram_message`. -/
theorem send_telegram_message_exhaustion_logs_and_raises
    (cfg : Config) (content title : PyStr) (transport : Nat → SendOutcome)
    (hT : truthy cfg.TELEGRAM_BOT_TOKEN = true) (hC : truthy cfg.TELEGRAM_CHAT_ID = true)
    (hfail : ∀ i, transport i ≠ SendOutcome.success) :
    (send_telegram_message cfg content title transport).result
      = Except.error (PyError.retryError (outcomeError (transport 3))) ∧
    (send_telegram_message cfg content title transport).result ≠ Except.ok () ∧
    (send_telegram_message cfg content title transport).calls = 3 ∧
    (∀ i, 1 ≤ i → i ≤ 3 →
      outcomeErrorLog (transport i)
        ∈ (send_telegram_message cfg content title transport).logs) ∧
    (∀ i, (outcomeErrorLog (transport i)).level = LogLevel.error) := by
  have hb1 := send_telegram_message_body_fails cfg content title (transport 1) hT hC (hfail 1)
  have hb2 := send_telegram_message_body_fails cfg content title (transport 2) hT hC (hfail 2)
  have hb3 := send_telegram_message_body_fails cfg content title (transport 3) hT hC (hfail 3)
  have hres : (send_telegram_message cfg content title transport).result
      = Except.error (PyError.retryError (outcomeError (transport 3))) := by
    simp [send_telegram_message, retryRun, retryAux, hb1.1, hb2.1, hb3.1]
  have hlogs : (send_telegram_message cfg content title transport).logs
      = (send_telegram_message_body cfg content title (transport 1)).logs
        ++ ((send_telegram_message_body cfg content title (transport 2)).logs
        ++ (send_telegram_message_body cfg content title (transport 3)).logs) := by
    simp [send_telegram_message, retryRun, retryAux, hb1.1, hb2.1, hb3.1]
  refine ⟨hres, by rw [hres]; simp, ?_, ?_, ?_⟩
  · simp [send_telegram_message, retryRun, retryAux, hb1.1, hb2.1, hb3.1]
  · intro i hi1 hi3
    rw [hlogs]
    interval_cases i
    · exact List.mem_append.mpr (Or.inl hb1.2)
    · exact List.mem_append.mpr (Or.inr (List.mem_append.mpr (Or.inl hb2.2)))
    · exact List.mem_append.mpr (Or.inr (List.mem_append.mpr (Or.inr hb3.2)))
  · intro i
    cases hi : transport i with
    | success => exact absurd hi (hfail i)
    | telegramError m => simp [outcomeErrorLog]
    | unexpectedError m => simp [outcomeErrorLog]

/-- A transport failing on every attempt with a mixture of error kinds: a
`TelegramError` on the first attempt, an unexpected error afterwards. -/
def mixedFailTransport : Nat → SendOutcome :=
  fun i => if i = 1 then SendOutcome.telegramError "net".toList
    else SendOutcome.unexpectedError "boom".toList

/-- C2 witness: the amended theorem applied to a concrete configuration and
a transport failing with mixed error kinds on every attempt. -/
theorem send_telegram_message_exhaustion_logs_and_raises_witness :
    (send_telegram_message cfgOK "hi".toList "t".toList mixedFailTransport).result
      = Except.error (PyError.retryError (outcomeError (mixedFailTransport 3))) ∧
    (send_telegram_message cfgOK "hi".toList "t".toList mixedFailTransport).result
      ≠ Except.ok () ∧
    (send_telegram_message cfgOK "hi".toList "t".toList mixedFailTransport).calls = 3 ∧
    (∀ i, 1 ≤ i → i ≤ 3 →
      outcomeErrorLog (mixedFailTransport i)
        ∈ (send_telegram_message cfgOK "hi".toList "t".toList mixedFailTransport).logs) ∧
    (∀ i, (outcomeErrorLog (mixedFailTransport i)).level = LogLevel.error) :=
  send_telegram_message_exhaustion_logs_and_raises cfgOK "hi".toList "t".toList
    mixedFailTransport (by decide) (by decide)
    (fun i => by by_cases h : i = 1 <;> simp [mixedFailTransport, h])

/-- C3: for every rendered message, if its length `L` is at most 4000 the
text handed to the transport send call is the rendered text unchanged; if
`L > 4000` the text handed over is exactly the first 4000 characters
followed by `"..."` (total length 4003) and a warning stating the original
length `L` is logged. -/
theorem send_telegram_message_truncation
    (cfg : Config) (content title : PyStr) (transport : SendOutcome)
    (hT : truthy cfg.TELEGRAM_BOT_TOKEN = true) (hC : truthy cfg.TELEGRAM_CHAT_ID = true) :
    ((renderMessage title content).length ≤ 4000 →
      (send_telegram_message_body cfg content title transport).sent
        = [renderMessage title content]) ∧
    ((renderMessage title content).length > 4000 →
      (send_telegram_message_body cfg content title transport).sent
        = [(renderMessage title content).take 4000 ++ "...".toList] ∧
      ((renderMessage title content).take 4000 ++ "...".toList).length = 4003 ∧
      (⟨LogLevel.warning,
          "消息过长 (".toList ++ (toString (renderMessage title content).length).toList
            ++ " chars)，将被截断.".toList, false⟩ : LogEntry)
        ∈ (send_telegram_message_body cfg content title transport).logs) := by
  constructor
  · intro h
    cases transport <;>
      simp [send_telegram_message_body, hT, hC, MAX_LENGTH, Nat.not_lt.mpr h]
  · intro h
    refine ⟨?_, ?_, ?_⟩
    · cases transport <;>
        simp [send_telegram_message_body, hT, hC, MAX_LENGTH, h]
    · simp [List.length_append, List.length_take,
        Nat.min_eq_left (Nat.le_of_lt h)]
    · cases transport <;>
        simp [send_telegram_message_body, hT, hC, MAX_LENGTH, h]

/-- C3 witness: the theorem applied to a concrete oversized message (body of
4100 characters), exercising the truncation branch. -/
theorem send_telegram_message_truncation_witness :
    ((renderMessage "t".toList (List.replicate 4100 'a')).length ≤ 4000 →
      (send_telegram_message_body cfgOK (List.replicate 4100 'a') "t".toList
          SendOutcome.success).sent
        = [renderMessage "t".toList (List.replicate 4100 'a')]) ∧
    ((renderMessage "t".toList (List.replicate 4100 'a')).length > 4000 →
      (send_telegram_message_body cfgOK (List.replicate 4100 'a') "t".toList
          SendOutcome.success).sent
        = [(renderMessage "t".toList (List.replicate 4100 'a')).take 4000 ++ "...".toList] ∧
      ((renderMessage "t".toList (List.replicate 4100 'a')).take 4000 ++ "...".toList).length = 4003 ∧
      (⟨LogLevel.warning,
          "消息过长 (".toList
            ++ (toString (renderMessage "t".toList (List.replicate 4100 'a')).length).toList
            ++ " chars)，将被截断.".toList, false⟩ : LogEntry)
        ∈ (send_telegram_message_body cfgOK (List.replicate 4100 'a') "t".toList
            SendOutcome.success).logs) :=
  send_telegram_message_truncation cfgOK (List.replicate 4100 'a') "t".toList
    SendOutcome.success (by decide) (by decide)

/-- C4: whenever the bot token or the chat id is absent (falsy),
`send_telegram_message` hands nothing to the transport's send call, logs an
error describing the missing configuration, and returns normally after a
single invocation of its body with no backoff delay — a no-op path distinct
from a delivery failure (the outcome is a normal return, not an error). -/
theorem send_telegram_message_missing_config_guard
    (cfg : Config) (content title : PyStr) (transport : Nat → SendOutcome)
    (h : truthy cfg.TELEGRAM_BOT_TOKEN = false ∨ truthy cfg.TELEGRAM_CHAT_ID = false) :
    (send_telegram_message cfg content title transport).sent = [] ∧
    (send_telegram_message cfg content title transport).calls = 1 ∧
    (send_telegram_message cfg content title transport).delays = [] ∧
    (send_telegram_message cfg content title transport).result = Except.ok () ∧
    (send_telegram_message cfg content title transport).logs
      = [⟨LogLevel.error,
          "未配置TELEGRAM_BOT_TOKEN或TELEGRAM_CHAT_ID，无法发送Telegram通知".toList, false⟩] := by
  rcases h with h | h <;>
    simp [send_telegram_message, retryRun, retryAux, send_telegram_message_body, h]

/-- C4 witness: the theorem applied to a configuration with no bot token. -/
theorem send_telegram_message_missing_config_guard_witness :
    (send_telegram_message ⟨none, some "C".toList⟩ "hi".toList "t".toList
        (fun _ => SendOutcome.success)).sent = [] ∧
    (send_telegram_message ⟨none, some "C".toList⟩ "hi".toList "t".toList
        (fun _ => SendOutcome.success)).calls = 1 ∧
    (send_telegram_message ⟨none, some "C".toList⟩ "hi".toList "t".toList
        (fun _ => SendOutcome.success)).delays = [] ∧
    (send_telegram_message ⟨none, some "C".toList⟩ "hi".toList "t".toList
        (fun _ => SendOutcome.success)).result = Except.ok () ∧
    (send_telegram_message ⟨none, some "C".toList⟩ "hi".toList "t".toList
        (fun _ => SendOutcome.success)).logs
      = [⟨LogLevel.error,
          "未配置TELEGRAM_BOT_TOKEN或TELEGRAM_CHAT_ID，无法发送Telegram通知".toList, false⟩] :=
  send_telegram_message_missing_config_guard ⟨none, some "C".toList⟩ "hi".toList "t".toList
    (fun _ => SendOutcome.success) (Or.inl rfl)

/-- C5: under the standard policy (3 attempts, `wait_exponential(multiplier=1,
min=2, max=10)`), for every operation failing on all invocations the backoff
delays actually applied are exactly those of the specification's formula
`min(max_delay, base_delay × multiplier^(i-1))` at the two reachable indices
— a fixed 2 seconds after each of the two failed attempts that are followed
by another attempt — and the library's wait never exceeds `max_delay = 10`
at any attempt index. -/
theorem safe_fetch_backoff_delays {α : Type}
    (errOf : Nat → PyError) (method : Nat → Except PyError α)
    (h : ∀ i, method i = Except.error (errOf i)) :
    (safe_fetch method).delays = [specDelay 1, specDelay 2] ∧
    specDelay 1 = 2 ∧ specDelay 2 = 2 ∧
    (∀ i, standardWait i ≤ 10) := by
  refine ⟨?_, by decide, by decide, ?_⟩
  · have hd : (safe_fetch method).delays = [standardWait 1, standardWait 2] := by
      simp [safe_fetch, retryRun, retryAux, safe_fetch_body, h]
    rw [hd]; decide
  · intro i
    exact Nat.max_le.mpr ⟨by decide, Nat.min_le_right _ _⟩

/-- C5 witness: the theorem applied to the concrete always-failing
operation `alwaysFailMethod`, with the bound evaluated at index 5. -/
theorem safe_fetch_backoff_delays_witness :
    ((safe_fetch alwaysFailMethod).delays = [specDelay 1, specDelay 2] ∧
      specDelay 1 = 2 ∧ specDelay 2 = 2 ∧
      (∀ i, standardWait i ≤ 10)) ∧
    standardWait 5 = 10 :=
  ⟨safe_fetch_backoff_delays (fun i => PyError.otherError (toString i).toList)
      alwaysFailMethod (fun _ => rfl), by decide⟩

/-- C6: for every operation that succeeds on attempt `k ≤ 3` (failing on
the attempts before it), the retry wrapper invokes the operation exactly
`k` times, sleeps only the `k - 1` delays that precede the successful
attempt (no delay follows it), and returns the operation's result
unchanged. -/
theorem safe_fetch_success_attempts {α : Type}
    (method : Nat → Except PyError α) (k : Nat) (v : α)
    (hk1 : 1 ≤ k) (hk3 : k ≤ 3)
    (hfail : ∀ i, 1 ≤ i → i < k → ∃ e, method i = Except.error e)
    (hsucc : method k = Except.ok v) :
    (safe_fetch method).calls = k ∧
    (safe_fetch method).delays.length = k - 1 ∧
    (safe_fetch method).result = Except.ok v := by
  interval_cases k
  · simp [safe_fetch, retryRun, retryAux, safe_fetch_body, hsucc]
  · obtain ⟨e1, h1⟩ := hfail 1 (by decide) (by decide)
    simp [safe_fetch, retryRun, retryAux, safe_fetch_body, h1, hsucc]
  · obtain ⟨e1, h1⟩ := hfail 1 (by decide) (by decide)
    obtain ⟨e2, h2⟩ := hfail 2 (by decide) (by decide)
    simp [safe_fetch, retryRun, retryAux, safe_fetch_body, h1, h2, hsucc]

/-- C6 witness: the theorem applied to an operation failing once and then
succeeding on its second invocation. -/
theorem safe_fetch_success_attempts_witness :
    (safe_fetch (fun i => if i = 2 then Except.ok 7
        else Except.error (PyError.otherError "e".toList))).calls = 2 ∧
    (safe_fetch (fun i => if i = 2 then Except.ok 7
        else Except.error (PyError.otherError "e".toList))).delays.length = 2 - 1 ∧
    (safe_fetch (fun i => if i = 2 then Except.ok 7
        else Except.error (PyError.otherError "e".toList))).result = Except.ok 7 :=
  safe_fetch_success_attempts
    (fun i => if i = 2 then Except.ok 7 else Except.error (PyError.otherError "e".toList))
    2 7 (by decide) (by decide)
    (fun i _ hlt => by
      interval_cases i
      exact ⟨PyError.otherError "e".toList, rfl⟩)
    rfl

/-- C7: on a failed delivery attempt, a transport-level error
(`TelegramError`) is logged at error severity with the transport's error
detail and a different (unexpected) error is logged at error severity with
full diagnostic context (`exc_info=True`); both kinds are re-raised, so the
retry policy retries them uniformly — with any always-failing transport,
whatever mixture of error kinds it raises, the body is invoked the full 3
times. -/
theorem send_telegram_message_error_paths_uniform_retry
    (cfg : Config) (content title : PyStr) (m : PyStr)
    (transport : Nat → SendOutcome)
    (hT : truthy cfg.TELEGRAM_BOT_TOKEN = true) (hC : truthy cfg.TELEGRAM_CHAT_ID = true)
    (hfail : ∀ i, transport i ≠ SendOutcome.success) :
    ((send_telegram_message_body cfg content title (SendOutcome.telegramError m)).result
        = Except.error (PyError.telegramError m) ∧
      (⟨LogLevel.error, "Telegram消息发送失败: ".toList ++ m, false⟩ : LogEntry)
        ∈ (send_telegram_message_body cfg content title (SendOutcome.telegramError m)).logs) ∧
    ((send_telegram_message_body cfg content title (SendOutcome.unexpectedError m)).result
        = Except.error (PyError.otherError m) ∧
      (⟨LogLevel.error, "发送Telegram消息时发生未知错误: ".toList ++ m, true⟩ : LogEntry)
        ∈ (send_telegram_message_body cfg content title (SendOutcome.unexpectedError m)).logs) ∧
    (send_telegram_message cfg content title transport).calls = 3 := by
  refine ⟨⟨?_, ?_⟩, ⟨?_, ?_⟩, ?_⟩ <;>
    try simp [send_telegram_message_body, hT, hC]
  have hbody : ∀ i, ∃ e,
      (send_telegram_message_body cfg content title (transport i)).result
        = Except.error e := by
    intro i
    cases hi : transport i with
    | success => exact absurd hi (hfail i)
    | telegramError m' =>
      exact ⟨PyError.telegramError m', by simp [send_telegram_message_body, hT, hC]⟩
    | unexpectedError m' =>
      exact ⟨PyError.otherError m', by simp [send_telegram_message_body, hT, hC]⟩
  obtain ⟨e1, h1⟩ := hbody 1
  obtain ⟨e2, h2⟩ := hbody 2
  obtain ⟨e3, h3⟩ := hbody 3
  simp [send_telegram_message, retryRun, retryAux, h1, h2, h3]

/-- C7 witness: the theorem applied to a concrete configuration and a
transport alternating between the two failing error kinds. -/
theorem send_telegram_message_error_paths_uniform_retry_witness :
    ((send_telegram_message_body cfgOK "b".toList "t".toList
          (SendOutcome.telegramError "e".toList)).result
        = Except.error (PyError.telegramError "e".toList) ∧
      (⟨LogLevel.error, "Telegram消息发送失败: ".toList ++ "e".toList, false⟩ : LogEntry)
        ∈ (send_telegram_message_body cfgOK "b".toList "t".toList
            (SendOutcome.telegramError "e".toList)).logs) ∧
    ((send_telegram_message_body cfgOK "b".toList "t".toList
          (SendOutcome.unexpectedError "e".toList)).result
        = Except.error (PyError.otherError "e".toList) ∧
      (⟨LogLevel.error, "发送Telegram消息时发生未知错误: ".toList ++ "e".toList, true⟩ : LogEntry)
        ∈ (send_telegram_message_body cfgOK "b".toList "t".toList
            (SendOutcome.unexpectedError "e".toList)).logs) ∧
    (send_telegram_message cfgOK "b".toList "t".toList
        (fun i => if i % 2 = 0 then SendOutcome.telegramError "e".toList
          else SendOutcome.unexpectedError "e".toList)).calls = 3 :=
  send_telegram_message_error_paths_uniform_retry cfgOK "b".toList "t".toList "e".toList
    (fun i => if i % 2 = 0 then SendOutcome.telegramError "e".toList
      else SendOutcome.unexpectedError "e".toList)
    (by decide) (by decide)
    (fun i => by by_cases h : i % 2 = 0 <;> simp [h])

/-- C8: with credentials present and a message below the size threshold,
the text handed to the transport is exactly the title wrapped in Markdown
asterisks, a blank line, then the body (`"*\x7btitle\x7d*\n\n\x7bbody\x7d"`);
and a call with the title omitted behaves as a call with the default title
`"交易通知"`. -/
theorem send_telegram_message_rendering_default_title
    (cfg : Config) (content title : PyStr) (transport : SendOutcome)
    (tr : Nat → SendOutcome)
    (hT : truthy cfg.TELEGRAM_BOT_TOKEN = true) (hC : truthy cfg.TELEGRAM_CHAT_ID = true)
    (hlen : ("*".toList ++ title ++ "*\n\n".toList ++ content).length ≤ 4000) :
    (send_telegram_message_body cfg content title transport).sent
      = ["*".toList ++ title ++ "*\n\n".toList ++ content] ∧
    send_telegram_message_defaultTitle cfg content tr
      = send_telegram_message cfg content "交易通知".toList tr := by
  have hlen' : (renderMessage title content).length ≤ 4000 := by
    simpa [renderMessage] using hlen
  have h1 : (send_telegram_message_body cfg content title transport).sent
      = [renderMessage title content] := by
    cases transport <;>
      simp [send_telegram_message_body, hT, hC, MAX_LENGTH, Nat.not_lt.mpr hlen']
  constructor
  · rw [h1]; simp [renderMessage]
  · rfl

/-- C8 witness: the theorem applied to a concrete title and body. -/
theorem send_telegram_message_rendering_default_title_witness :
    (send_telegram_message_body cfgOK "body".toList "Ti".toList SendOutcome.success).sent
      = ["*".toList ++ "Ti".toList ++ "*\n\n".toList ++ "body".toList] ∧
    send_telegram_message_defaultTitle cfgOK "body".toList (fun _ => SendOutcome.success)
      = send_telegram_message cfgOK "body".toList "交易通知".toList
          (fun _ => SendOutcome.success) :=
  send_telegram_message_rendering_default_title cfgOK "body".toList "Ti".toList
    SendOutcome.success (fun _ => SendOutcome.success) (by decide) (by decide) (by decide)

/-- C9: counterexample — on a successful delivery with title `"XYZ"`, the
success-path log stream is the info line `"正在发送Telegram通知: XYZ"`
emitted before the send, followed by the fixed info line
`"Telegram消息发送成功"` emitted after it; the post-success confirmation
does not name the title (no character of `"XYZ"` occurs in it), so the
claim that the success confirmation names the title fails on the code. -/
theorem send_telegram_message_success_log_counterexample :
    (send_telegram_message_body cfgOK "b".toList "XYZ".toList SendOutcome.success).logs
      = [⟨LogLevel.info, "正在发送Telegram通知: XYZ".toList, false⟩,
         ⟨LogLevel.info, "Telegram消息发送成功".toList, false⟩] ∧
    'X' ∈ "XYZ".toList ∧ 'X' ∉ "Telegram消息发送成功".toList := by
  decide

/-- C9 (amended): on every successful delivery an info-level log naming the
title is emitted before the send (`"正在发送Telegram通知: \x7btitle\x7d"`),
and the confirmation logged after the successful send is the fixed
info-level line `"Telegram消息发送成功"`, which does not mention the
title. -/
theorem send_telegram_message_success_logs
    (cfg : Config) (content title : PyStr)
    (hT : truthy cfg.TELEGRAM_BOT_TOKEN = true) (hC : truthy cfg.TELEGRAM_CHAT_ID = true) :
    (⟨LogLevel.info, "正在发送Telegram通知: ".toList ++ title, false⟩ : LogEntry)
      ∈ (send_telegram_message_body cfg content title SendOutcome.success).logs ∧
    (send_telegram_message_body cfg content title SendOutcome.success).logs.getLast?
      = some ⟨LogLevel.info, "Telegram消息发送成功".toList, false⟩ := by
  by_cases hw : (renderMessage title content).length > MAX_LENGTH <;>
    simp [send_telegram_message_body, hT, hC, hw, List.getLast?]

/-- C9 witness: the amended theorem applied to a concrete configuration,
title and body. -/
theorem send_telegram_message_success_logs_witness :
    (⟨LogLevel.info, "正在发送Telegram通知: ".toList ++ "Ti".toList, false⟩ : LogEntry)
      ∈ (send_telegram_message_body cfgOK "b".toList "Ti".toList SendOutcome.success).logs ∧
    (send_telegram_message_body cfgOK "b".toList "Ti".toList SendOutcome.success).logs.getLast?
      = some ⟨LogLevel.info, "Telegram消息发送成功".toList, false⟩ :=
  send_telegram_message_success_logs cfgOK "b".toList "Ti".toList (by decide) (by decide)

/-- C10: both non-raising paths of `send_telegram_message` — the
missing-configuration no-op and a delivery that succeeds — return the same
value, Python's `None` (modelled as a normal `Except.ok ()` return), so a
caller cannot distinguish a skipped notification from a delivered one by
the result. -/
theorem send_telegram_message_returns_none
    (cfg₁ cfg₂ : Config) (content title : PyStr) (tr₁ tr₂ : Nat → SendOutcome)
    (hmiss : truthy cfg₁.TELEGRAM_BOT_TOKEN = false ∨ truthy cfg₁.TELEGRAM_CHAT_ID = false)
    (hT : truthy cfg₂.TELEGRAM_BOT_TOKEN = true) (hC : truthy cfg₂.TELEGRAM_CHAT_ID = true)
    (hok : tr₂ 1 = SendOutcome.success) :
    (send_telegram_message cfg₁ content title tr₁).result = Except.ok () ∧
    (send_telegram_message cfg₂ content title tr₂).result = Except.ok () ∧
    (send_telegram_message cfg₁ content title tr₁).result
      = (send_telegram_message cfg₂ content title tr₂).result := by
  have hg : (send_telegram_message cfg₁ content title tr₁).result = Except.ok () := by
    rcases hmiss with h | h <;>
      simp [send_telegram_message, retryRun, retryAux, send_telegram_message_body, h]
  have hs : (send_telegram_message cfg₂ content title tr₂).result = Except.ok () := by
    simp [send_telegram_message, retryRun, retryAux, send_telegram_message_body,
      hT, hC, hok]
  exact ⟨hg, hs, by rw [hg, hs]⟩

/-- C10 witness: the theorem applied to a configuration with no token on
the no-op side and a first-attempt-success transport on the delivery
side. -/
theorem send_telegram_message_returns_none_witness :
    (send_telegram_message ⟨none, some "C".toList⟩ "b".toList "t".toList
        (fun _ => SendOutcome.success)).result = Except.ok () ∧
    (send_telegram_message cfgOK "b".toList "t".toList
        (fun _ => SendOutcome.success)).result = Except.ok () ∧
    (send_telegram_message ⟨none, some "C".toList⟩ "b".toList "t".toList
        (fun _ => SendOutcome.success)).result
      = (send_telegram_message cfgOK "b".toList "t".toList
          (fun _ => SendOutcome.success)).result :=
  send_telegram_message_returns_none ⟨none, some "C".toList⟩ cfgOK "b".toList "t".toList
    (fun _ => SendOutcome.success) (fun _ => SendOutcome.success)
    (Or.inl rfl) (by decide) (by decide) rfl

end GridBNB
